import Mathlib

/-!
# jsonvault — shallow embedding of the consensus core and the JSON store

Verification development for the `sandrolain/jsonvault` repository.
The definitions below are translated from the Rust sources:

* `src/protocol.rs`  — `Command`, `Response`, `ReplicationData`, `OperationType`;
* `src/database.rs`  — the in-memory JSON key-value store (`Database`);
* `src/raft_simple.rs` — the simplified Raft manager (`SimpleRaftManager`),
  which `src/lib.rs` re-exports as the crate's `RaftManager`.

Conventions of the embedding:

* `serde_json::Value` becomes the inductive `JsonValue`; numbers are modelled
  as `Int` (no claim touches floating point).  A JSON object
  (`serde_json::Map`, a `BTreeMap` with unique keys) is modelled as an
  association list `List (String × JsonValue)` queried by `findValue`;
  `insertValue` mirrors `BTreeMap::insert` (replace the value of an existing
  key in place, otherwise add the binding).
* The `DashMap<String, Value>` behind `Database` is likewise an association
  list `Db`; methods that mutate `self` return the new map next to the
  `Response`.
* The `jsonpath_lib` crate used by `Database::qget` is an external
  collaborator, so its `select` function is a parameter (`JsonPathLib`)
  of every operation that can reach it.
* Each `async` method of `SimpleRaftManager` becomes a pure step function on
  a `RaftNode` record holding the fields of the Rust struct (uuids are
  modelled as `Nat`; the wall-clock `last_heartbeat` instant and the logging
  calls have no effect on the modelled state and are omitted).
-/

/-- `serde_json::Value`.  Objects are association lists with unique keys. -/
inductive JsonValue where
  | null
  | bool (b : Bool)
  | num (n : Int)
  | str (s : String)
  | arr (elems : List JsonValue)
  | obj (fields : List (String × JsonValue))

/-- Lookup in a JSON object / in the store map (`BTreeMap::get`, `DashMap::get`). -/
def findValue (k : String) : List (String × JsonValue) → Option JsonValue
  | [] => none
  | (k', v) :: rest => if k' = k then some v else findValue k rest

/-- `BTreeMap::insert` / `DashMap::insert`: replace the value of an existing
key in place, otherwise add the binding at the end. -/
def insertValue (k : String) (v : JsonValue) : List (String × JsonValue) → List (String × JsonValue)
  | [] => [(k, v)]
  | (k', v') :: rest => if k' = k then (k, v) :: rest else (k', v') :: insertValue k v rest

/-- `BTreeMap::remove` / `DashMap::remove`: drop the binding of a key. -/
def removeValue (k : String) : List (String × JsonValue) → List (String × JsonValue)
  | [] => []
  | (k', v') :: rest => if k' = k then rest else (k', v') :: removeValue k rest

/-- `OperationType` of `src/protocol.rs`. -/
inductive OperationType where
  | Set
  | Delete
  | Merge
  | QSet

/-- `ReplicationData` of `src/protocol.rs`. -/
inductive ReplicationData where
  | FullSync (entries : List (String × JsonValue))
  | Operation (op_type : OperationType) (key : String) (value : Option JsonValue)

/-- `Command` of `src/protocol.rs`. -/
inductive Command where
  | Set (key : String) (value : JsonValue)
  | Get (key : String)
  | Delete (key : String)
  | QGet (key : String) (query : String)
  | QSet (key : String) (path : String) (value : JsonValue)
  | Merge (key : String) (value : JsonValue)
  | Ping
  | Replicate (data : ReplicationData)

/-- `Response` of `src/protocol.rs`. -/
inductive Response where
  | Ok (value : Option JsonValue)
  | Error (msg : String)
  | Pong
  | ReplicationAck

/-- The `data` map of `Database` (`DashMap<String, Value>`). -/
def Db : Type := List (String × JsonValue)

/-- The external `jsonpath_lib` crate consumed by `Database::qget`, modelled
as a parameter: `select` stands for `jsonpath_lib::select`. -/
structure JsonPathLib where
  select : JsonValue → String → Except String (List JsonValue)

/-- `Database::is_valid_json` (`src/database.rs`): every `serde_json::Value`
is accepted, explicit null included. -/
def is_valid_json (_v : JsonValue) : Bool := true

/- `Database::merge_json_values` together with its iteration over the fields
of the new object (`src/database.rs:365-389`).  `mergeObjFields merged no`
is the `for (key, value) in new_obj` loop with accumulator `merged`. -/
mutual

/-- `Database::merge_json_values` (`src/database.rs:365-389`). -/
def mergeJsonValues : JsonValue → JsonValue → Except String JsonValue
  | JsonValue.obj existing_obj, JsonValue.obj new_obj =>
    match mergeObjFields existing_obj new_obj with
    | Except.ok merged => Except.ok (JsonValue.obj merged)
    | Except.error e => Except.error e
  | JsonValue.arr existing_arr, JsonValue.arr new_arr =>
    Except.ok (JsonValue.arr (existing_arr ++ new_arr))
  | _, new => Except.ok new
termination_by e n => sizeOf n

/-- The `for (key, value) in new_obj` loop of `Database::merge_json_values`,
with accumulator `merged`. -/
def mergeObjFields : List (String × JsonValue) → List (String × JsonValue) →
    Except String (List (String × JsonValue))
  | merged, [] => Except.ok merged
  | merged, (key, value) :: rest =>
    match findValue key merged with
    | some existing_value =>
      match mergeJsonValues existing_value value with
      | Except.ok mv => mergeObjFields (insertValue key mv merged) rest
      | Except.error e => Except.error e
    | none => mergeObjFields (insertValue key value merged) rest
termination_by merged l => sizeOf l

end

namespace Database

/-- `Database::set`: validate, insert, reply `Ok(None)`. -/
def set (db : Db) (key : String) (value : JsonValue) : Response × Db :=
  if is_valid_json value = false then (Response.Error "Invalid JSON value", db)
  else (Response.Ok none, insertValue key value db)

/-- `Database::get`: read-only, `Ok(Some v)` when present, `Ok(None)` otherwise. -/
def get (db : Db) (key : String) : Response :=
  match findValue key db with
  | some value => Response.Ok (some value)
  | none => Response.Ok none

/-- `Database::delete`: remove and reply `Ok(None)` when present,
`Error("Key not found")` otherwise. -/
def delete (db : Db) (key : String) : Response × Db :=
  match findValue key db with
  | some _ => (Response.Ok none, removeValue key db)
  | none => (Response.Error "Key not found", db)

/-- `Database::qget`: JSONPath query through the external `jsonpath_lib`. -/
def qget (jp : JsonPathLib) (db : Db) (key : String) (query : String) : Response :=
  match findValue key db with
  | some value =>
    match jp.select value query with
    | Except.ok result =>
      if result.isEmpty then Response.Ok (some JsonValue.null)
      else if result.length = 1 then Response.Ok (some (result.headD JsonValue.null))
      else Response.Ok (some (JsonValue.arr result))
    | Except.error e => Response.Error ("JSONPath query error: " ++ e)
  | none => Response.Error "Key not found"

/-- `Database::merge`: validate, deep-merge with the existing value if any,
store the result. -/
def merge (db : Db) (key : String) (new_value : JsonValue) : Response × Db :=
  if is_valid_json new_value = false then (Response.Error "Invalid JSON value", db)
  else
    match findValue key db with
    | some existing_value =>
      match mergeJsonValues existing_value new_value with
      | Except.ok merged => (Response.Ok none, insertValue key merged db)
      | Except.error e => (Response.Error e, db)
    | none => (Response.Ok none, insertValue key new_value db)

end Database

/-- A single-quote character as a string (used by the error messages that
`format!` builds with `'{}'` in `src/database.rs`). -/
def squote : String := String.singleton (Char.ofNat 39)

/-- `current_key.parse::<usize>()`: an optional leading plus sign followed by
at least one digit (the `usize` overflow bound is irrelevant to the claims). -/
def parseUsize (s : String) : Option Nat :=
  let t := if s.startsWith "+" then s.drop 1 else s
  t.toNat?

namespace Database

/-- `Database::set_nested_value` (`src/database.rs:277-352`). -/
def set_nested_value (value : JsonValue) (path_parts : List String) (new_value : JsonValue) :
    Except String JsonValue :=
  match path_parts with
  | [] => Except.ok new_value
  | current_key :: remaining_parts =>
    match parseUsize current_key with
    | some index =>
      match value with
      | JsonValue.arr arr =>
        let arr := arr ++ List.replicate (index + 1 - arr.length) JsonValue.null
        if remaining_parts.isEmpty then
          Except.ok (JsonValue.arr (arr.set index new_value))
        else
          match set_nested_value (arr.getD index JsonValue.null) remaining_parts new_value with
          | Except.ok inner => Except.ok (JsonValue.arr (arr.set index inner))
          | Except.error e => Except.error e
      | _ => Except.error ("Cannot index non-array value with " ++ squote ++ current_key ++ squote)
    | none =>
      match value with
      | JsonValue.obj map =>
        if remaining_parts.isEmpty then
          Except.ok (JsonValue.obj (insertValue current_key new_value map))
        else
          let map := if (findValue current_key map).isSome then map
                     else insertValue current_key (JsonValue.obj []) map
          match set_nested_value ((findValue current_key map).getD JsonValue.null)
              remaining_parts new_value with
          | Except.ok nested => Except.ok (JsonValue.obj (insertValue current_key nested map))
          | Except.error e => Except.error e
      | JsonValue.null =>
        if remaining_parts.isEmpty then
          Except.ok (JsonValue.obj [(current_key, new_value)])
        else
          match set_nested_value (JsonValue.obj []) remaining_parts new_value with
          | Except.ok nested => Except.ok (JsonValue.obj [(current_key, nested)])
          | Except.error e => Except.error e
      | _ => Except.error
          ("Cannot access property " ++ squote ++ current_key ++ squote ++ " on non-object value")

/-- `Database::set_json_path` (`src/database.rs:262-274`). -/
def set_json_path (value : JsonValue) (path : String) (new_value : JsonValue) :
    Except String JsonValue :=
  let path := (path.dropWhile (fun c => c = '$')).dropWhile (fun c => c = '.')
  if path.isEmpty then Except.ok new_value
  else set_nested_value value (path.splitOn ".") new_value

/-- `Database::qset` (`src/database.rs:134-167`). -/
def qset (db : Db) (key : String) (path : String) (value : JsonValue) : Response × Db :=
  if is_valid_json value = false then (Response.Error "Invalid JSON value", db)
  else
    let existing_value := (findValue key db).getD (JsonValue.obj [])
    match set_json_path existing_value path value with
    | Except.ok modified_value => (Response.Ok none, insertValue key modified_value db)
    | Except.error e => (Response.Error ("JSONPath set error: " ++ e), db)

/-- `Database::handle_replication` (`src/database.rs:197-237`): full sync
clears the map and inserts every pair; a single operation is applied directly. -/
def handle_replication (db : Db) : ReplicationData → Response × Db
  | ReplicationData.FullSync entries =>
    (Response.ReplicationAck, entries.foldl (fun acc kv => insertValue kv.1 kv.2 acc) ([] : Db))
  | ReplicationData.Operation op_type key value =>
    let db :=
      match op_type, value with
      | OperationType.Set, some v => insertValue key v db
      | OperationType.Set, none => db
      | OperationType.Delete, _ => removeValue key db
      | OperationType.Merge, some v => insertValue key v db
      | OperationType.Merge, none => db
      | OperationType.QSet, some v => insertValue key v db
      | OperationType.QSet, none => db
    (Response.ReplicationAck, db)

/-- `Database::execute_command` (`src/database.rs:43-54`).  The mutation of
`self.data` is returned next to the `Response`; `replicate_operation` only
talks to the network and never changes the map. -/
def execute_command (jp : JsonPathLib) (db : Db) : Command → Response × Db
  | Command.Set key value => set db key value
  | Command.Get key => (get db key, db)
  | Command.Delete key => delete db key
  | Command.QGet key query => (qget jp db key query, db)
  | Command.QSet key path value => qset db key path value
  | Command.Merge key value => merge db key value
  | Command.Ping => (Response.Pong, db)
  | Command.Replicate data => handle_replication db data

end Database

/-! ## The simplified Raft manager (`src/raft_simple.rs`) -/

/-- `RaftState` (`src/raft_simple.rs:18-22`). -/
inductive RaftState where
  | Follower
  | Candidate
  | Leader
deriving DecidableEq

/-- `LogEntry` (`src/raft_simple.rs:26-31`); the random `Uuid` is a `Nat`. -/
structure LogEntry where
  term : Nat
  index : Nat
  command : Command
  id : Nat

/-- `AppendEntriesRequest` (`src/raft_simple.rs:35-42`). -/
structure AppendEntriesRequest where
  term : Nat
  leader_id : Nat
  prev_log_index : Nat
  prev_log_term : Nat
  entries : List LogEntry
  leader_commit : Nat

/-- `AppendEntriesResponse` (`src/raft_simple.rs:46-50`). -/
structure AppendEntriesResponse where
  term : Nat
  success : Bool
  match_index : Option Nat

/-- `VoteRequest` (`src/raft_simple.rs:54-59`). -/
structure VoteRequest where
  term : Nat
  candidate_id : Nat
  last_log_index : Nat
  last_log_term : Nat

/-- `VoteResponse` (`src/raft_simple.rs:63-66`). -/
structure VoteResponse where
  term : Nat
  vote_granted : Bool

/-- The state of a `SimpleRaftManager` (`src/raft_simple.rs:69-105`) together
with its `Database`; the wall-clock `last_heartbeat` and the `election_timeout`
duration carry no modelled information. -/
structure RaftNode where
  node_id : Nat
  state : RaftState
  current_term : Nat
  voted_for : Option Nat
  log : List LogEntry
  last_applied : Nat
  commit_index : Nat
  cluster_nodes : List Nat
  current_leader : Option Nat
  database : Db

namespace SimpleRaftManager

/-- `SimpleRaftManager::new` (`src/raft_simple.rs:108-123`). -/
def new (node_id : Nat) (database : Db) : RaftNode :=
  { node_id := node_id
    state := RaftState.Follower
    current_term := 0
    voted_for := none
    log := []
    last_applied := 0
    commit_index := 0
    cluster_nodes := [node_id]
    current_leader := none
    database := database }

/-- `SimpleRaftManager::is_leader` (`src/raft_simple.rs:173-175`). -/
def is_leader (n : RaftNode) : Bool :=
  match n.state with
  | RaftState.Leader => true
  | _ => false

/-- `SimpleRaftManager::initialize_cluster` (`src/raft_simple.rs:126-141`):
record the membership, and become leader at once when the node is the single
member; otherwise only the background election timer is started (modelled
separately by `election_timer_step`). -/
def init_cluster (n : RaftNode) (members : List Nat) : RaftNode :=
  let n := { n with cluster_nodes := members }
  match members with
  | [m] =>
    if m = n.node_id then
      { n with state := RaftState.Leader, current_leader := some n.node_id }
    else n
  | _ => n

/-- `SimpleRaftManager::submit_command` (`src/raft_simple.rs:144-170`).
`fresh_id` stands for the `Uuid::new_v4()` drawn for the entry. -/
def submit_command (jp : JsonPathLib) (n : RaftNode) (command : Command) (fresh_id : Nat) :
    RaftNode × Except String Response :=
  if is_leader n = false then
    (n, Except.error "Not the leader")
  else
    let entry : LogEntry :=
      { term := n.current_term, index := n.log.length + 1, command := command, id := fresh_id }
    let res := Database.execute_command jp n.database command
    ({ n with
        log := n.log ++ [entry]
        database := res.2
        last_applied := entry.index
        commit_index := entry.index },
      Except.ok res.1)

/-- `SimpleRaftManager::add_node` (`src/raft_simple.rs:203-210`). -/
def add_node (n : RaftNode) (new_node_id : Nat) : RaftNode :=
  if n.cluster_nodes.contains new_node_id then n
  else { n with cluster_nodes := n.cluster_nodes ++ [new_node_id] }

/-- One firing of the election-timer task body after the timeout elapsed
(`src/raft_simple.rs:226-261`): a non-leader bumps its term, votes for
itself, becomes Candidate, then wins at once in a single-node cluster and
otherwise falls back to Follower (multi-node elections are not implemented). -/
def election_timer_step (n : RaftNode) : RaftNode :=
  match n.state with
  | RaftState.Leader => n
  | _ =>
    let n := { n with
      current_term := n.current_term + 1
      voted_for := some n.node_id
      state := RaftState.Candidate
      current_leader := none }
    if n.cluster_nodes.length = 1 then
      { n with state := RaftState.Leader, current_leader := some n.node_id }
    else
      { n with state := RaftState.Follower }

/-- `SimpleRaftManager::handle_append_entries` (`src/raft_simple.rs:266-295`). -/
def handle_append_entries (n : RaftNode) (request : AppendEntriesRequest) :
    RaftNode × AppendEntriesResponse :=
  if request.term < n.current_term then
    (n, { term := n.current_term, success := false, match_index := none })
  else
    let n :=
      if n.current_term < request.term then
        { n with current_term := request.term, voted_for := none, state := RaftState.Follower }
      else n
    let n := { n with current_leader := some request.leader_id }
    (n, { term := n.current_term
          success := true
          match_index := some (request.prev_log_index + request.entries.length) })

/-- `SimpleRaftManager::handle_vote_request` (`src/raft_simple.rs:298-328`). -/
def handle_vote_request (n : RaftNode) (request : VoteRequest) : RaftNode × VoteResponse :=
  if request.term < n.current_term then
    (n, { term := n.current_term, vote_granted := false })
  else
    let n :=
      if n.current_term < request.term then
        { n with current_term := request.term, voted_for := none, state := RaftState.Follower }
      else n
    let vote_granted := n.voted_for.isNone || n.voted_for == some request.candidate_id
    let n := if vote_granted then { n with voted_for := some request.candidate_id } else n
    (n, { term := n.current_term, vote_granted := vote_granted })

end SimpleRaftManager

/-! ## Auxiliary definitions used by the statements -/

/-- A trivial instantiation of the external `jsonpath_lib` collaborator,
used to evaluate statements on concrete inputs. -/
def jp0 : JsonPathLib := { select := fun _ _ => Except.ok [] }

/-- `value` is a JSON object. -/
def isObj : JsonValue → Bool
  | JsonValue.obj _ => true
  | _ => false

/-- `value` is a JSON array. -/
def isArr : JsonValue → Bool
  | JsonValue.arr _ => true
  | _ => false

/-- The `commit_index ≤ highest log index` invariant of the spec's data
model, which every operation of the consensus core preserves. -/
def commit_inv (n : RaftNode) : Prop := n.commit_index ≤ n.log.length

/-- A freshly created node (term 0, empty log, `Follower`). -/
def node0 : RaftNode := SimpleRaftManager.new 1 []

/-- An `AppendEntries` request whose `prev_log_index`/`prev_log_term` match
no entry of `node0`'s (empty) log. -/
def c1_request : AppendEntriesRequest :=
  { term := 0, leader_id := 2, prev_log_index := 5, prev_log_term := 3,
    entries := [], leader_commit := 0 }

/-- A node at term 5 whose last log entry has term 5. -/
def c2_node : RaftNode :=
  { SimpleRaftManager.new 1 [] with
      current_term := 5
      log := [{ term := 5, index := 1, command := Command.Ping, id := 0 }] }

/-- A vote request from a candidate whose log (last term 0, last index 0) is
strictly less up to date than `c2_node`'s log. -/
def c2_request : VoteRequest :=
  { term := 5, candidate_id := 2, last_log_index := 0, last_log_term := 0 }

/-- A vote request carrying a term strictly greater than `node0`'s term 0. -/
def c6_request : VoteRequest :=
  { term := 1, candidate_id := 7, last_log_index := 0, last_log_term := 0 }

/-- A node at term 1 with three log entries and `commit_index = 0`. -/
def c7_node : RaftNode :=
  { SimpleRaftManager.new 1 [] with
      current_term := 1
      log := [{ term := 1, index := 1, command := Command.Ping, id := 0 },
              { term := 1, index := 2, command := Command.Ping, id := 0 },
              { term := 1, index := 3, command := Command.Ping, id := 0 }] }

/-- A heartbeat (empty `entries`) whose `leader_commit = 2` exceeds
`c7_node`'s `commit_index = 0` while its log reaches index 3. -/
def c7_request : AppendEntriesRequest :=
  { term := 1, leader_id := 2, prev_log_index := 3, prev_log_term := 1,
    entries := [], leader_commit := 2 }

/-- A node at term 1 (so that requests at term 0 are stale). -/
def c5_node : RaftNode := { SimpleRaftManager.new 1 [] with current_term := 1 }

/-- A stale `AppendEntries` request (term 0 against `c5_node`'s term 1). -/
def c5_ae_request : AppendEntriesRequest :=
  { term := 0, leader_id := 2, prev_log_index := 0, prev_log_term := 0,
    entries := [], leader_commit := 0 }

/-- A stale vote request (term 0 against `c5_node`'s term 1). -/
def c5_vote_request : VoteRequest :=
  { term := 0, candidate_id := 2, last_log_index := 0, last_log_term := 0 }

/-! ## Theorems -/

/-- C1: the claim requires `handle_append_entries` to answer `success = false`
whenever the receiver's log has no entry at `prev_log_index` with
`prev_log_term`.  The code accepts unconditionally once the term is current:
on a node with an empty log, a request with `prev_log_index = 5`,
`prev_log_term = 3` and a term ≥ the receiver's still gets `success = true`. -/
theorem append_entries_accepts_without_log_matching :
    node0.current_term ≤ c1_request.term
      ∧ node0.log = []
      ∧ (SimpleRaftManager.handle_append_entries node0 c1_request).2.success = true :=
  ⟨Nat.le_refl 0, rfl, rfl⟩

/-- C2: the claim requires the vote to be granted only when the candidate's
log is at least as up to date as the receiver's.  `c2_node`'s last log entry
has term 5 while the candidate reports `last_log_term = 0`, yet the code
grants the vote (it only consults `voted_for`). -/
theorem vote_granted_without_log_recency_check :
    c2_node.current_term ≤ c2_request.term
      ∧ c2_node.voted_for = none
      ∧ (c2_node.log.getLast?.map LogEntry.term) = some 5
      ∧ c2_request.last_log_term = 0
      ∧ (SimpleRaftManager.handle_vote_request c2_node c2_request).2.vote_granted = true
      ∧ (SimpleRaftManager.handle_vote_request c2_node c2_request).1.voted_for = some 2 :=
  ⟨Nat.le_refl 5, rfl, rfl, rfl, rfl, rfl⟩

/-- C7: the claim says an accepted AppendEntries — a heartbeat included —
advances the follower's `commit_index` to `min leader_commit last_log_index`.
On `c7_node` (log up to index 3, `commit_index = 0`) the accepted heartbeat
with `leader_commit = 2` should move `commit_index` to 2, but the handler
never reads `leader_commit` and leaves `commit_index` at 0. -/
theorem append_entries_ignores_leader_commit :
    (SimpleRaftManager.handle_append_entries c7_node c7_request).2.success = true
      ∧ c7_request.entries = []
      ∧ c7_request.leader_commit = 2
      ∧ c7_node.log.length = 3
      ∧ c7_node.commit_index = 0
      ∧ min c7_request.leader_commit c7_node.log.length = 2
      ∧ (SimpleRaftManager.handle_append_entries c7_node c7_request).1.commit_index = 0 :=
  ⟨rfl, rfl, rfl, rfl, rfl, by decide, rfl⟩

/-- C5: a request bearing a term strictly below the receiver's current term
is answered with the receiver's term and `success`/`vote_granted = false`,
and the receiver's state is returned unchanged. -/
theorem stale_term_request_rejected_unchanged (n : RaftNode)
    (ae : AppendEntriesRequest) (vr : VoteRequest) :
    (ae.term < n.current_term →
      SimpleRaftManager.handle_append_entries n ae
        = (n, { term := n.current_term, success := false, match_index := none }))
    ∧ (vr.term < n.current_term →
      SimpleRaftManager.handle_vote_request n vr
        = (n, { term := n.current_term, vote_granted := false })) := by
  constructor
  · intro h
    simp [SimpleRaftManager.handle_append_entries, h]
  · intro h
    simp [SimpleRaftManager.handle_vote_request, h]

/-- C5 witness: the stale requests against `c5_node` (term 1). -/
theorem stale_term_request_rejected_unchanged_witness :
    (c5_ae_request.term < c5_node.current_term
      ∧ SimpleRaftManager.handle_append_entries c5_node c5_ae_request
          = (c5_node, { term := 1, success := false, match_index := none }))
    ∧ (c5_vote_request.term < c5_node.current_term
      ∧ SimpleRaftManager.handle_vote_request c5_node c5_vote_request
          = (c5_node, { term := 1, vote_granted := false })) :=
  ⟨⟨by decide,
    (stale_term_request_rejected_unchanged c5_node c5_ae_request c5_vote_request).1 (by decide)⟩,
   ⟨by decide,
    (stale_term_request_rejected_unchanged c5_node c5_ae_request c5_vote_request).2 (by decide)⟩⟩

/-- C6 counterexample: on `node0` (term 0, `voted_for = none`) the vote
request `c6_request` (term 1, candidate 7) makes `current_term` increase
within the step, yet the step ends with `voted_for = some 7`, not `none` —
the handler records the granted vote after clearing. -/
theorem higher_term_vote_request_ends_with_vote_recorded :
    node0.current_term = 0
      ∧ (SimpleRaftManager.handle_vote_request node0 c6_request).1.current_term = 1
      ∧ (SimpleRaftManager.handle_vote_request node0 c6_request).1.voted_for = some 7
      ∧ (SimpleRaftManager.handle_vote_request node0 c6_request).1.voted_for ≠ none :=
  ⟨rfl, rfl, rfl, by decide⟩

/-- C6 (amended): a request with a term strictly greater than the receiver's
makes the handler adopt that term and become Follower; `voted_for` is cleared
before the vote decision, so after `handle_append_entries` it is `none`,
while after `handle_vote_request` the cleared vote lets the grant succeed and
`voted_for` ends as `some candidate_id` — in either case no vote from an
earlier term survives the term increase. -/
theorem higher_term_adoption (n : RaftNode) (ae : AppendEntriesRequest) (vr : VoteRequest) :
    (n.current_term < ae.term →
      ((SimpleRaftManager.handle_append_entries n ae).1.current_term = ae.term
        ∧ (SimpleRaftManager.handle_append_entries n ae).1.voted_for = none
        ∧ (SimpleRaftManager.handle_append_entries n ae).1.state = RaftState.Follower))
    ∧ (n.current_term < vr.term →
      ((SimpleRaftManager.handle_vote_request n vr).1.current_term = vr.term
        ∧ (SimpleRaftManager.handle_vote_request n vr).1.state = RaftState.Follower
        ∧ (SimpleRaftManager.handle_vote_request n vr).1.voted_for = some vr.candidate_id
        ∧ (SimpleRaftManager.handle_vote_request n vr).2.vote_granted = true)) := by
  constructor
  · intro h
    have hs : ¬ ae.term < n.current_term := by omega
    simp [SimpleRaftManager.handle_append_entries, hs, h]
  · intro h
    have hs : ¬ vr.term < n.current_term := by omega
    simp [SimpleRaftManager.handle_vote_request, hs, h]

/-- C6 witness: `node0` (term 0) against requests at term 1. -/
theorem higher_term_adoption_witness :
    (node0.current_term < c1_request.term + 1
      ∧ (SimpleRaftManager.handle_vote_request node0 c6_request).1.voted_for = some 7)
    ∧ (node0.current_term < c6_request.term
      ∧ (SimpleRaftManager.handle_vote_request node0 c6_request).2.vote_granted = true) :=
  ⟨⟨by decide, ((higher_term_adoption node0 c5_ae_request c6_request).2 (by decide)).2.2.1⟩,
   ⟨by decide, ((higher_term_adoption node0 c5_ae_request c6_request).2 (by decide)).2.2.2⟩⟩

/-- C3: `submit_command` on a non-leader fails with "Not the leader" and
leaves the whole node (log, `commit_index`, `last_applied`, store) unchanged;
on a leader it returns the store's response for the command. -/
theorem submit_command_requires_leader (jp : JsonPathLib) (n : RaftNode)
    (command : Command) (fresh_id : Nat) :
    (n.state ≠ RaftState.Leader →
      SimpleRaftManager.submit_command jp n command fresh_id
        = (n, Except.error "Not the leader"))
    ∧ (n.state = RaftState.Leader →
      (SimpleRaftManager.submit_command jp n command fresh_id).2
        = Except.ok (Database.execute_command jp n.database command).1) := by
  constructor
  · intro h
    have hl : SimpleRaftManager.is_leader n = false := by
      unfold SimpleRaftManager.is_leader
      cases hs : n.state <;> simp_all
    simp [SimpleRaftManager.submit_command, hl]
  · intro h
    have hl : SimpleRaftManager.is_leader n = true := by
      unfold SimpleRaftManager.is_leader
      rw [h]
    simp [SimpleRaftManager.submit_command, hl]

/-- C3 witness: a freshly created node is a Follower, so `submit_command`
fails and changes nothing; the single-node leader of C4's witness covers the
leader half. -/
theorem submit_command_requires_leader_witness :
    node0.state ≠ RaftState.Leader
      ∧ SimpleRaftManager.submit_command jp0 node0 Command.Ping 0
          = (node0, Except.error "Not the leader") :=
  ⟨by decide, (submit_command_requires_leader jp0 node0 Command.Ping 0).1 (by decide)⟩

/-- C4: initializing the cluster with the node as its only member makes it
Leader immediately (its own id as `current_leader`, `is_leader` true), and
`submit_command` of any command then returns the store's result wrapped in
`Ok` — no election timeout or vote exchange is involved. -/
theorem single_node_cluster_becomes_leader (jp : JsonPathLib) (n : RaftNode)
    (command : Command) (fresh_id : Nat) :
    (SimpleRaftManager.init_cluster n [n.node_id]).state = RaftState.Leader
    ∧ (SimpleRaftManager.init_cluster n [n.node_id]).current_leader = some n.node_id
    ∧ SimpleRaftManager.is_leader (SimpleRaftManager.init_cluster n [n.node_id]) = true
    ∧ (SimpleRaftManager.submit_command jp (SimpleRaftManager.init_cluster n [n.node_id])
          command fresh_id).2
        = Except.ok (Database.execute_command jp n.database command).1 := by
  refine ⟨?_, ?_, ?_, ?_⟩ <;>
    simp [SimpleRaftManager.init_cluster, SimpleRaftManager.is_leader,
      SimpleRaftManager.submit_command]

/-- C8: under the data-model invariant `commit_index ≤ log length` — which
holds at node creation and is preserved by every operation — no operation of
the consensus core decreases `commit_index`. -/
theorem commit_index_monotone (jp : JsonPathLib) (n : RaftNode) (command : Command)
    (fresh_id : Nat) (ae : AppendEntriesRequest) (vr : VoteRequest)
    (members : List Nat) (node_id new_node_id : Nat) (db : Db)
    (h : commit_inv n) :
    commit_inv (SimpleRaftManager.new node_id db)
    ∧ (n.commit_index ≤ (SimpleRaftManager.submit_command jp n command fresh_id).1.commit_index
        ∧ commit_inv (SimpleRaftManager.submit_command jp n command fresh_id).1)
    ∧ (n.commit_index ≤ (SimpleRaftManager.handle_append_entries n ae).1.commit_index
        ∧ commit_inv (SimpleRaftManager.handle_append_entries n ae).1)
    ∧ (n.commit_index ≤ (SimpleRaftManager.handle_vote_request n vr).1.commit_index
        ∧ commit_inv (SimpleRaftManager.handle_vote_request n vr).1)
    ∧ (n.commit_index ≤ (SimpleRaftManager.init_cluster n members).commit_index
        ∧ commit_inv (SimpleRaftManager.init_cluster n members))
    ∧ (n.commit_index ≤ (SimpleRaftManager.add_node n new_node_id).commit_index
        ∧ commit_inv (SimpleRaftManager.add_node n new_node_id))
    ∧ (n.commit_index ≤ (SimpleRaftManager.election_timer_step n).commit_index
        ∧ commit_inv (SimpleRaftManager.election_timer_step n)) := by
  unfold commit_inv at h ⊢
  refine ⟨by simp [SimpleRaftManager.new], ⟨?_, ?_⟩, ⟨?_, ?_⟩, ⟨?_, ?_⟩, ⟨?_, ?_⟩, ⟨?_, ?_⟩,
    ⟨?_, ?_⟩⟩ <;>
    simp only [SimpleRaftManager.submit_command, SimpleRaftManager.handle_append_entries,
      SimpleRaftManager.handle_vote_request, SimpleRaftManager.init_cluster,
      SimpleRaftManager.add_node, SimpleRaftManager.election_timer_step] <;>
    (repeat' split) <;> (try simp) <;> omega

/-- C8 witness: the freshly created `node0` satisfies the invariant and no
operation applied to it decreases its `commit_index`. -/
theorem commit_index_monotone_witness :
    commit_inv node0
      ∧ (node0.commit_index
          ≤ (SimpleRaftManager.submit_command jp0 node0 Command.Ping 0).1.commit_index
        ∧ node0.commit_index
          ≤ (SimpleRaftManager.election_timer_step node0).commit_index) :=
  ⟨by simp [commit_inv, node0, SimpleRaftManager.new],
   (commit_index_monotone jp0 node0 Command.Ping 0 c5_ae_request c5_vote_request [1] 1 2 []
      (by simp [commit_inv, node0, SimpleRaftManager.new])).2.1.1,
   ((commit_index_monotone jp0 node0 Command.Ping 0 c5_ae_request c5_vote_request [1] 1 2 []
      (by simp [commit_inv, node0, SimpleRaftManager.new])).2.2.2.2.2.2).1⟩

/-- C10: `Database::get` on an absent key answers `Ok(None)` while
`Database::delete` on an absent key answers `Error("Key not found")`; in both
cases the store's contents are unchanged (`get` never writes, `delete`
returns the map as it was). -/
theorem get_and_delete_on_missing_key (db : Db) (key : String)
    (h : findValue key db = none) :
    Database.get db key = Response.Ok none
      ∧ Database.delete db key = (Response.Error "Key not found", db) := by
  constructor
  · simp [Database.get, h]
  · simp [Database.delete, h]

/-- C10 witness: the empty store holds no key "a". -/
theorem get_and_delete_on_missing_key_witness :
    findValue "a" ([] : Db) = none
      ∧ Database.get ([] : Db) "a" = Response.Ok none
      ∧ Database.delete ([] : Db) "a" = (Response.Error "Key not found", ([] : Db)) :=
  ⟨rfl, (get_and_delete_on_missing_key [] "a" rfl).1,
    (get_and_delete_on_missing_key [] "a" rfl).2⟩

/-- Lookup after insertion: the inserted key maps to the new value, every
other key is untouched. -/
theorem findValue_insertValue : ∀ (l : List (String × JsonValue)) (k q : String) (v : JsonValue),
    findValue q (insertValue k v l) = if k = q then some v else findValue q l := by
  intro l
  induction l with
  | nil => intro k q v; simp [insertValue, findValue]
  | cons p rest ih =>
    intro k q v
    obtain ⟨pk, pv⟩ := p
    simp only [insertValue]
    by_cases h1 : pk = k
    · subst h1
      simp only [if_pos rfl, findValue]
      by_cases h2 : pk = q <;> simp [h2]
    · simp only [if_neg h1, findValue, ih]
      by_cases h2 : pk = q
      · subst h2
        have hkq : ¬ k = pk := fun h => h1 h.symm
        simp [hkq]
      · simp [h2]

/-- A key absent from the key list of an association list has no value. -/
theorem findValue_eq_none : ∀ (l : List (String × JsonValue)) (k : String),
    k ∉ l.map Prod.fst → findValue k l = none := by
  intro l
  induction l with
  | nil => intro k _; rfl
  | cons p rest ih =>
    intro k hk
    obtain ⟨pk, pv⟩ := p
    simp only [List.map_cons, List.mem_cons] at hk
    push_neg at hk
    rw [findValue, if_neg (fun h => hk.1 h.symm), ih k hk.2]

/-- `merge_json_values` can only error through its recursive calls, and every
base case succeeds, so it never errors (bounded-size version for the mutual
induction). -/
theorem merge_ok_bound : ∀ (N : Nat),
    (∀ (e n : JsonValue), sizeOf n < N → ∃ v, mergeJsonValues e n = Except.ok v)
    ∧ (∀ (acc l : List (String × JsonValue)), sizeOf l < N →
        ∃ m, mergeObjFields acc l = Except.ok m) := by
  intro N
  induction N with
  | zero =>
    exact ⟨fun e n h => absurd h (Nat.not_lt_zero _),
      fun acc l h => absurd h (Nat.not_lt_zero _)⟩
  | succ N ih =>
    constructor
    · intro e n hn
      rw [mergeJsonValues.eq_def]
      split
      · rename_i eo no
        obtain ⟨m, hm⟩ := ih.2 eo no (by simp at hn; omega)
        exact ⟨JsonValue.obj m, by rw [hm]⟩
      · exact ⟨_, rfl⟩
      · exact ⟨_, rfl⟩
    · intro acc l hl
      rw [mergeObjFields.eq_def]
      split
      · exact ⟨_, rfl⟩
      · rename_i key value rest
        cases hf : findValue key acc with
        | some ev =>
          obtain ⟨mv, hmv⟩ := ih.1 ev value (by simp at hl; omega)
          obtain ⟨m, hm⟩ := ih.2 (insertValue key mv acc) rest (by simp at hl; omega)
          exact ⟨m, by simp only [hf, hmv]; exact hm⟩
        | none =>
          obtain ⟨m, hm⟩ := ih.2 (insertValue key value acc) rest (by simp at hl; omega)
          exact ⟨m, by simp only [hf]; exact hm⟩

/-- `merge_json_values` never returns an error. -/
theorem merge_ok (e n : JsonValue) : ∃ v, mergeJsonValues e n = Except.ok v :=
  (merge_ok_bound (sizeOf n + 1)).1 e n (by omega)

/-- Lookup characterization of the object-merge loop: a key of the new object
absent from the accumulator is added, a key present in both is merged
recursively, and every other key of the accumulator is kept. -/
theorem mergeObjFields_findValue : ∀ (no acc : List (String × JsonValue)),
    (no.map Prod.fst).Nodup → ∀ (q : String),
    ∃ m, mergeObjFields acc no = Except.ok m ∧
      findValue q m =
        (match findValue q no with
         | none => findValue q acc
         | some nv =>
           match findValue q acc with
           | none => some nv
           | some ev => (mergeJsonValues ev nv).toOption) := by
  intro no
  induction no with
  | nil =>
    intro acc _ q
    exact ⟨acc, by simp [mergeObjFields], by simp [findValue]⟩
  | cons p rest ih =>
    intro acc hnd q
    obtain ⟨pk, pv⟩ := p
    have hnd' : (rest.map Prod.fst).Nodup := by
      simp only [List.map_cons, List.nodup_cons] at hnd; exact hnd.2
    have hpk : pk ∉ rest.map Prod.fst := by
      simp only [List.map_cons, List.nodup_cons] at hnd; exact hnd.1
    cases hf : findValue pk acc with
    | some ev =>
      obtain ⟨mv, hmv⟩ := merge_ok ev pv
      obtain ⟨m, hm, hlook⟩ := ih (insertValue pk mv acc) hnd' q
      refine ⟨m, ?_, ?_⟩
      · simp only [mergeObjFields, hf, hmv]; exact hm
      · rw [hlook]
        by_cases hq : pk = q
        · subst hq
          simp [findValue, findValue_insertValue, findValue_eq_none rest pk hpk, hf, hmv,
            Except.toOption]
        · simp [findValue, hq, findValue_insertValue, hf]
    | none =>
      obtain ⟨m, hm, hlook⟩ := ih (insertValue pk pv acc) hnd' q
      refine ⟨m, ?_, ?_⟩
      · simp only [mergeObjFields, hf]; exact hm
      · rw [hlook]
        by_cases hq : pk = q
        · subst hq
          simp [findValue, findValue_insertValue, findValue_eq_none rest pk hpk, hf]
        · simp [findValue, hq, findValue_insertValue, hf]

/-- C9: `merge_json_values` deep-merges two objects key-wise (keys in both
merged recursively, keys in one side kept), concatenates two arrays, and for
any other combination the new value replaces the existing one; the store
sequence Set a=1; Set a={"b":2}; Merge a={"c":3} leaves a = {"b":2,"c":3}. -/
theorem merge_deep_union_concat_replace (jp : JsonPathLib)
    (eo no : List (String × JsonValue)) (ea na : List JsonValue)
    (e n : JsonValue) (q : String)
    (hno : (no.map Prod.fst).Nodup)
    (hobj : isObj e = false ∨ isObj n = false)
    (harr : isArr e = false ∨ isArr n = false) :
    mergeJsonValues (JsonValue.arr ea) (JsonValue.arr na)
        = Except.ok (JsonValue.arr (ea ++ na))
    ∧ mergeJsonValues e n = Except.ok n
    ∧ (∃ m, mergeJsonValues (JsonValue.obj eo) (JsonValue.obj no)
          = Except.ok (JsonValue.obj m)
        ∧ findValue q m =
            (match findValue q no with
             | none => findValue q eo
             | some nv =>
               match findValue q eo with
               | none => some nv
               | some ev => (mergeJsonValues ev nv).toOption))
    ∧ Database.get
        (Database.execute_command jp
          (Database.execute_command jp
            (Database.execute_command jp [] (Command.Set "a" (JsonValue.num 1))).2
            (Command.Set "a" (JsonValue.obj [("b", JsonValue.num 2)]))).2
          (Command.Merge "a" (JsonValue.obj [("c", JsonValue.num 3)]))).2 "a"
        = Response.Ok (some (JsonValue.obj [("b", JsonValue.num 2), ("c", JsonValue.num 3)])) := by
  refine ⟨by simp [mergeJsonValues], ?_, ?_, ?_⟩
  · cases e <;> cases n <;>
      first
        | (rw [mergeJsonValues.eq_def]; done)
        | (rcases hobj with h | h <;> simp [isObj] at h <;> done)
        | (rcases harr with h | h <;> simp [isArr] at h <;> done)
  · obtain ⟨m, hm, hlook⟩ := mergeObjFields_findValue no eo hno q
    exact ⟨m, by simp [mergeJsonValues, hm], hlook⟩
  · simp [Database.execute_command, Database.set, Database.merge, Database.get,
      is_valid_json, findValue, insertValue, mergeJsonValues, mergeObjFields]

/-- C9 witness: a concrete instantiation — existing object `{"b":2}` against
new object `{"c":3}` at key "c", arrays `[1]`/`[2]`, and the incompatible
pair `1` / `"x"`. -/
theorem merge_deep_union_concat_replace_witness :
    ((([("c", JsonValue.num 3)].map Prod.fst).Nodup
        ∧ (isObj (JsonValue.num 1) = false ∨ isObj (JsonValue.str "x") = false)
        ∧ (isArr (JsonValue.num 1) = false ∨ isArr (JsonValue.str "x") = false))
      ∧ mergeJsonValues (JsonValue.num 1) (JsonValue.str "x")
          = Except.ok (JsonValue.str "x"))
    ∧ (∃ m, mergeJsonValues (JsonValue.obj [("b", JsonValue.num 2)])
            (JsonValue.obj [("c", JsonValue.num 3)])
          = Except.ok (JsonValue.obj m)
        ∧ findValue "c" m =
            (match findValue "c" [("c", JsonValue.num 3)] with
             | none => findValue "c" [("b", JsonValue.num 2)]
             | some nv =>
               match findValue "c" [("b", JsonValue.num 2)] with
               | none => some nv
               | some ev => (mergeJsonValues ev nv).toOption)) :=
  ⟨⟨⟨by simp, Or.inl rfl, Or.inl rfl⟩,
    (merge_deep_union_concat_replace jp0 [("b", JsonValue.num 2)] [("c", JsonValue.num 3)]
      [JsonValue.num 1] [JsonValue.num 2] (JsonValue.num 1) (JsonValue.str "x") "c"
      (by simp) (Or.inl rfl) (Or.inl rfl)).2.1⟩,
   (merge_deep_union_concat_replace jp0 [("b", JsonValue.num 2)] [("c", JsonValue.num 3)]
      [JsonValue.num 1] [JsonValue.num 2] (JsonValue.num 1) (JsonValue.str "x") "c"
      (by simp) (Or.inl rfl) (Or.inl rfl)).2.2.1⟩
